import Mathlib

/-!
Verification of the multiplexing core of pywebsocket
(`src/mod_pywebsocket/mux.py`, draft-ietf-hybi-websocket-multiplexing-03).

The Python source is shallowly embedded: bytes are `Nat` values below 256,
byte strings are `List Nat`, exceptions are `Except` errors, and the
position-tracking payload parser `_MuxFramePayloadParser` is a record of the
payload and the current read position.  Python's leading underscores are
dropped from names because Lean reserves them.
-/

set_option maxRecDepth 4000

namespace Pywebsocket

/-- Exceptions raised by `mux.py` (plus `ValueError` and `NameError` from the
Python runtime, which the module lets escape in some paths). -/
inductive MuxErr where
  | invalidMuxFrame
  | invalidMuxControlBlock
  | muxNotImplemented
  | muxUnexpected
  | valueError
  | nameError
  deriving DecidableEq, Repr

/-- `_CONTROL_CHANNEL_ID` in the source. -/
def CONTROL_CHANNEL_ID : Nat := 0

/-- `_DEFAULT_CHANNEL_ID` in the source. -/
def DEFAULT_CHANNEL_ID : Nat := 1

/-- `_MAX_CHANNEL_ID = 2 ** 29 - 1` in the source. -/
def MAX_CHANNEL_ID : Nat := 2 ^ 29 - 1

/-- Big-endian 2-byte packing, `struct.pack` format `!H`. -/
def pack16 (x : Nat) : List Nat := [x / 256 % 256, x % 256]

/-- Big-endian 4-byte packing, `struct.pack` format `!L`. -/
def pack32 (x : Nat) : List Nat :=
  [x / 2 ^ 24 % 256, x / 2 ^ 16 % 256, x / 2 ^ 8 % 256, x % 256]

/-- Embeds `_encode_channel_id`.  The negative-id `ValueError` cannot arise
over `Nat`; ids of 2^29 and larger raise `ValueError`. -/
def encode_channel_id (channel_id : Nat) : Except MuxErr (List Nat) :=
  if channel_id < 2 ^ 7 then .ok [channel_id]
  else if channel_id < 2 ^ 14 then .ok (pack16 (0x8000 + channel_id))
  else if channel_id < 2 ^ 21 then
    .ok ((0xc0 + (channel_id >>> 16)) :: pack16 (channel_id &&& 0xffff))
  else if channel_id < 2 ^ 29 then .ok (pack32 (0xe0000000 + channel_id))
  else .error .valueError

/-- Embeds the state of `_MuxFramePayloadParser`: the payload and the
current read position. -/
structure MuxFramePayloadParser where
  data : List Nat
  read_position : Nat
  deriving DecidableEq, Repr

/-- Byte access `self._data[i]`.  All accesses in the source are guarded by
explicit remaining-length checks, so the default value is never exposed. -/
def byteAt (p : MuxFramePayloadParser) (i : Nat) : Nat := p.data.getD i 0

/-- Big-endian 16-bit read at a position, `struct.unpack` format `!H`. -/
def be16 (p : MuxFramePayloadParser) (pos : Nat) : Nat :=
  byteAt p pos * 256 + byteAt p (pos + 1)

/-- Big-endian 32-bit read at a position, `struct.unpack` format `!L`. -/
def be32 (p : MuxFramePayloadParser) (pos : Nat) : Nat :=
  ((byteAt p pos * 256 + byteAt p (pos + 1)) * 256 + byteAt p (pos + 2)) * 256
    + byteAt p (pos + 3)

/-- Advances `self._read_position` by `n`. -/
def advance (p : MuxFramePayloadParser) (n : Nat) : MuxFramePayloadParser :=
  { p with read_position := p.read_position + n }

/-- Embeds `_MuxFramePayloadParser.read_channel_id`.  Raises
`InvalidMuxFrameException` when no channel id is present or the form selected
by the first byte's high bits needs more bytes than remain. -/
def read_channel_id (p : MuxFramePayloadParser) :
    Except MuxErr (Nat × MuxFramePayloadParser) :=
  let remaining_length := p.data.length - p.read_position
  let pos := p.read_position
  if remaining_length = 0 then .error .invalidMuxFrame
  else
    let b := byteAt p pos
    if b &&& 0xe0 = 0xe0 then
      if remaining_length < 4 then .error .invalidMuxFrame
      else .ok (be32 p pos &&& 0x1fffffff, advance p 4)
    else if b &&& 0xc0 = 0xc0 then
      if remaining_length < 3 then .error .invalidMuxFrame
      else .ok (((b &&& 0x1f) <<< 16) + be16 p (pos + 1), advance p 3)
    else if b &&& 0x80 = 0x80 then
      if remaining_length < 2 then .error .invalidMuxFrame
      else .ok (be16 p pos &&& 0x3fff, advance p 2)
    else .ok (b, advance p 1)

section MaskLemmas

lemma and_mask14 (x : Nat) : x &&& 0x3fff = x % 16384 := by
  have h := Nat.and_pow_two_sub_one_eq_mod x 14
  norm_num at h
  exact h

lemma and_mask16 (x : Nat) : x &&& 0xffff = x % 65536 := by
  have h := Nat.and_pow_two_sub_one_eq_mod x 16
  norm_num at h
  exact h

lemma and_mask29 (x : Nat) : x &&& 0x1fffffff = x % 536870912 := by
  have h := Nat.and_pow_two_sub_one_eq_mod x 29
  norm_num at h
  exact h

set_option maxRecDepth 4000

lemma band_e0 : ∀ b < 256, ((b &&& 0xe0 = 0xe0) ↔ 224 ≤ b) := by decide

lemma band_c0 : ∀ b < 256, ((b &&& 0xc0 = 0xc0) ↔ 192 ≤ b) := by decide

lemma band_80 : ∀ b < 256, ((b &&& 0x80 = 0x80) ↔ 128 ≤ b) := by decide

lemma band_1f : ∀ b < 256, b &&& 0x1f = b % 32 := by decide

end MaskLemmas

section ChannelIdDecodeLemmas

/-- Decoding the one-byte form `0xxxxxxx`. -/
lemma read_channel_id_one_byte (x : Nat) (hx : x < 2 ^ 7) :
    read_channel_id ⟨[x], 0⟩ = .ok (x, ⟨[x], 1⟩) := by
  have hx256 : x < 256 := by omega
  have h1 : ¬(x &&& 0xe0 = 0xe0) := by
    rw [band_e0 x hx256]; omega
  have h2 : ¬(x &&& 0xc0 = 0xc0) := by
    rw [band_c0 x hx256]; omega
  have h3 : ¬(x &&& 0x80 = 0x80) := by
    rw [band_80 x hx256]; omega
  simp [read_channel_id, byteAt, advance, h1, h2, h3]

/-- Decoding the two-byte form `10xxxxxx xxxxxxxx` (as produced by
`struct.pack` of `0x8000 + x`) yields `x` for every `x < 2^14`. -/
lemma read_channel_id_two_byte (x : Nat) (hx : x < 2 ^ 14) :
    read_channel_id ⟨pack16 (0x8000 + x), 0⟩ =
      .ok (x, ⟨pack16 (0x8000 + x), 2⟩) := by
  have hb0 : (0x8000 + x) / 256 % 256 = 128 + x / 256 := by omega
  have hb0lt : (0x8000 + x) / 256 % 256 < 256 := by omega
  have h1 : ¬((0x8000 + x) / 256 % 256 &&& 0xe0 = 0xe0) := by
    rw [band_e0 _ hb0lt]; omega
  have h2 : ¬((0x8000 + x) / 256 % 256 &&& 0xc0 = 0xc0) := by
    rw [band_c0 _ hb0lt]; omega
  have h3 : (0x8000 + x) / 256 % 256 &&& 0x80 = 0x80 := by
    rw [band_80 _ hb0lt]; omega
  have hz : ¬((2 : Nat) - 0 = 0) := by omega
  have hrem : ¬((2 : Nat) - 0 < 2) := by omega
  simp only [read_channel_id, pack16, byteAt, be16, advance, List.length_cons,
    List.length_nil, List.getD, List.get?, Option.getD_some, Option.getD_none,
    h1, h2, h3, hz, hrem, if_true, if_false, ite_true, ite_false]
  rw [and_mask14]
  rw [show ((0x8000 + x) / 256 % 256 * 256 + (0x8000 + x) % 256) % 16384 = x
      from by omega]

/-- Decoding the three-byte form `110xxxxx xxxxxxxx xxxxxxxx` yields `x` for
every `x < 2^21`. -/
lemma read_channel_id_three_byte (x : Nat) (hx : x < 2 ^ 21) :
    read_channel_id ⟨(0xc0 + (x >>> 16)) :: pack16 (x &&& 0xffff), 0⟩ =
      .ok (x, ⟨(0xc0 + (x >>> 16)) :: pack16 (x &&& 0xffff), 3⟩) := by
  have hs : x >>> 16 = x / 65536 := by
    rw [Nat.shiftRight_eq_div_pow]
  have hm : x &&& 0xffff = x % 65536 := and_mask16 x
  have hb0lt : 0xc0 + x / 65536 < 256 := by omega
  have h1 : ¬(0xc0 + x / 65536 &&& 0xe0 = 0xe0) := by
    rw [band_e0 _ hb0lt]; omega
  have h2 : 0xc0 + x / 65536 &&& 0xc0 = 0xc0 := by
    rw [band_c0 _ hb0lt]; omega
  have h5 : 0xc0 + x / 65536 &&& 0x1f = (0xc0 + x / 65536) % 32 :=
    band_1f _ hb0lt
  have hz : ¬((3 : Nat) - 0 = 0) := by omega
  have hrem : ¬((3 : Nat) - 0 < 3) := by omega
  rw [hs, hm]
  simp only [read_channel_id, pack16, byteAt, be16, advance, List.length_cons,
    List.length_nil, List.getD, List.get?, Option.getD_some, Option.getD_none,
    h1, h2, h5, hz, hrem, if_true, if_false, ite_true, ite_false]
  rw [Nat.shiftLeft_eq]
  rw [show (0xc0 + x / 65536) % 32 * 2 ^ 16 +
        (x % 65536 / 256 % 256 * 256 + x % 65536 % 256) = x from by omega]

/-- Decoding the four-byte form `111xxxxx …` yields `x` for every
`x < 2^29`. -/
lemma read_channel_id_four_byte (x : Nat) (hx : x < 2 ^ 29) :
    read_channel_id ⟨pack32 (0xe0000000 + x), 0⟩ =
      .ok (x, ⟨pack32 (0xe0000000 + x), 4⟩) := by
  have hb0lt : (0xe0000000 + x) / 2 ^ 24 % 256 < 256 := by omega
  have h1 : (0xe0000000 + x) / 2 ^ 24 % 256 &&& 0xe0 = 0xe0 := by
    rw [band_e0 _ hb0lt]; omega
  have hz : ¬((4 : Nat) - 0 = 0) := by omega
  have hrem : ¬((4 : Nat) - 0 < 4) := by omega
  simp only [read_channel_id, pack32, byteAt, be32, advance, List.length_cons,
    List.length_nil, List.getD, List.get?, Option.getD_some, Option.getD_none,
    h1, hz, hrem, if_true, if_false, ite_true, ite_false]
  rw [and_mask29]
  rw [show (((0xe0000000 + x) / 2 ^ 24 % 256 * 256 +
        (0xe0000000 + x) / 2 ^ 16 % 256) * 256 +
        (0xe0000000 + x) / 2 ^ 8 % 256) * 256 +
        (0xe0000000 + x) % 256 = 0xe0000000 + x from by omega]
  rw [show (0xe0000000 + x) % 536870912 = x from by omega]

/-- Encode-then-decode is the identity on `[0, 2^29 - 1]`, and decoding
consumes exactly the encoded bytes. -/
lemma encode_decode_channel_id (id : Nat) (hid : id < 2 ^ 29) :
    ∃ bs, encode_channel_id id = .ok bs ∧
      read_channel_id ⟨bs, 0⟩ = .ok (id, ⟨bs, bs.length⟩) := by
  rcases Nat.lt_or_ge id (2 ^ 7) with h1 | h1
  · refine ⟨[id], ?_, ?_⟩
    · unfold encode_channel_id
      rw [if_pos h1]
    · simpa using read_channel_id_one_byte id h1
  rcases Nat.lt_or_ge id (2 ^ 14) with h2 | h2
  · refine ⟨pack16 (0x8000 + id), ?_, ?_⟩
    · unfold encode_channel_id
      rw [if_neg (by omega), if_pos h2]
    · simpa [pack16] using read_channel_id_two_byte id h2
  rcases Nat.lt_or_ge id (2 ^ 21) with h3 | h3
  · refine ⟨(0xc0 + (id >>> 16)) :: pack16 (id &&& 0xffff), ?_, ?_⟩
    · unfold encode_channel_id
      rw [if_neg (by omega), if_neg (by omega), if_pos h3]
    · simpa [pack16] using read_channel_id_three_byte id h3
  · refine ⟨pack32 (0xe0000000 + id), ?_, ?_⟩
    · unfold encode_channel_id
      rw [if_neg (by omega), if_neg (by omega), if_neg (by omega), if_pos hid]
    · simpa [pack32] using read_channel_id_four_byte id hid

end ChannelIdDecodeLemmas

/-- C3: for every channel id in `[0, 2^29 - 1]`, encoding then decoding
returns the original value (consuming exactly the encoded bytes); the encoder
picks the shortest legal form, as witnessed by the boundary values
`0, 1, 2^14-1, 2^14, 2^21-1, 2^21, 2^29-1` mapping to the byte strings
`00`, `01`, `BF FF`, `C0 40 00`, `DF FF FF`, `E0 20 00 00`, `FF FF FF FF`;
and encoding `2^29` is rejected with a `ValueError`. -/
theorem channel_id_codec_roundtrip_and_forms :
    (∀ id : Nat, id < 2 ^ 29 →
      ∃ bs, encode_channel_id id = .ok bs ∧
        read_channel_id ⟨bs, 0⟩ = .ok (id, ⟨bs, bs.length⟩)) ∧
    encode_channel_id 0 = .ok [0x00] ∧
    encode_channel_id 1 = .ok [0x01] ∧
    encode_channel_id (2 ^ 14 - 1) = .ok [0xbf, 0xff] ∧
    encode_channel_id (2 ^ 14) = .ok [0xc0, 0x40, 0x00] ∧
    encode_channel_id (2 ^ 21 - 1) = .ok [0xdf, 0xff, 0xff] ∧
    encode_channel_id (2 ^ 21) = .ok [0xe0, 0x20, 0x00, 0x00] ∧
    encode_channel_id (2 ^ 29 - 1) = .ok [0xff, 0xff, 0xff, 0xff] ∧
    encode_channel_id (2 ^ 29) = .error .valueError :=
  ⟨encode_decode_channel_id, rfl, rfl, rfl, rfl, rfl, rfl, rfl, rfl⟩

/-- Witness for C3 at the concrete channel id 300. -/
theorem channel_id_codec_roundtrip_witness :
    ∃ bs, encode_channel_id 300 = .ok bs ∧
      read_channel_id ⟨bs, 0⟩ = .ok (300, ⟨bs, bs.length⟩) :=
  channel_id_codec_roundtrip_and_forms.1 300 (by norm_num)

/-- C4 counterexample: the decoder does not reject over-long encodings.  The
value 5 has the one-byte shortest form `05`, yet the two-byte form `80 05`
decodes successfully to 5 instead of failing. -/
theorem read_channel_id_accepts_overlong :
    encode_channel_id 5 = .ok [0x05] ∧
    read_channel_id ⟨[0x80, 0x05], 0⟩ = .ok (5, ⟨[0x80, 0x05], 2⟩) :=
  ⟨rfl, rfl⟩

/-- C4 amended: the decoder accepts every well-formed encoding, shortest or
not, returning the carried value — each of the 2-, 3- and 4-byte forms
decodes to its carried value over that form's full range — and it rejects
only truncated inputs, where fewer bytes remain than the form selected by
the first byte's high bits requires. -/
theorem read_channel_id_decodes_every_legal_form :
    (∀ x : Nat, x < 2 ^ 14 →
      read_channel_id ⟨pack16 (0x8000 + x), 0⟩ =
        .ok (x, ⟨pack16 (0x8000 + x), 2⟩)) ∧
    (∀ x : Nat, x < 2 ^ 21 →
      read_channel_id ⟨(0xc0 + (x >>> 16)) :: pack16 (x &&& 0xffff), 0⟩ =
        .ok (x, ⟨(0xc0 + (x >>> 16)) :: pack16 (x &&& 0xffff), 3⟩)) ∧
    (∀ x : Nat, x < 2 ^ 29 →
      read_channel_id ⟨pack32 (0xe0000000 + x), 0⟩ =
        .ok (x, ⟨pack32 (0xe0000000 + x), 4⟩)) ∧
    read_channel_id ⟨[0x80], 0⟩ = .error .invalidMuxFrame ∧
    read_channel_id ⟨[0xc0, 0x00], 0⟩ = .error .invalidMuxFrame ∧
    read_channel_id ⟨[0xe0, 0x00, 0x00], 0⟩ = .error .invalidMuxFrame :=
  ⟨read_channel_id_two_byte, read_channel_id_three_byte,
   read_channel_id_four_byte, rfl, rfl, rfl⟩

/-- Witness for the amended C4 at the concrete value 5 in two-byte form. -/
theorem read_channel_id_decodes_every_legal_form_witness :
    read_channel_id ⟨pack16 (0x8000 + 5), 0⟩ =
      .ok (5, ⟨pack16 (0x8000 + 5), 2⟩) :=
  read_channel_id_decodes_every_legal_form.1 5 (by norm_num)

/-- Byte string of a Python `str` (all texts involved are ASCII). -/
def strBytes (s : String) : List Nat := s.toList.map Char.toNat

/-- Modelled from the spec: `create_header` of `mod_pywebsocket._stream_hybi`
is not among the provided sources.  Per §4.2 and §6 the codec rebuilds a
standard RFC 6455 WebSocket frame header: one byte
`FIN|RSV1|RSV2|RSV3|OPCODE`, then the mask bit with the 7-bit length, the
7+16-bit or the 7+64-bit big-endian length form. -/
def create_header (opcode payload_length : Nat)
    (fin rsv1 rsv2 rsv3 mask : Bool) : List Nat :=
  let first := (cond fin 0x80 0) ||| (cond rsv1 0x40 0) ||| (cond rsv2 0x20 0)
    ||| (cond rsv3 0x10 0) ||| opcode
  let mask_bit := cond mask 0x80 0
  if payload_length < 126 then [first, mask_bit ||| payload_length]
  else if payload_length < 2 ^ 16 then
    [first, mask_bit ||| 126] ++ pack16 payload_length
  else
    [first, mask_bit ||| 127] ++
      [payload_length / 2 ^ 56 % 256, payload_length / 2 ^ 48 % 256,
       payload_length / 2 ^ 40 % 256, payload_length / 2 ^ 32 % 256,
       payload_length / 2 ^ 24 % 256, payload_length / 2 ^ 16 % 256,
       payload_length / 2 ^ 8 % 256, payload_length % 256]

/-- Embeds `_MuxFramePayloadParser.read_inner_frame`: after the channel id,
one byte holds `FIN|RSV1|RSV2|RSV3|OPCODE`; the rest of the payload is the
inner payload; the reconstructed standard frame is returned and the read
position jumps to the end of the data. -/
def read_inner_frame (p : MuxFramePayloadParser) :
    Except MuxErr (List Nat × MuxFramePayloadParser) :=
  if p.data.length = p.read_position then .error .invalidMuxFrame
  else
    let bits := byteAt p p.read_position
    let fin := bits &&& 0x80 == 0x80
    let rsv1 := bits &&& 0x40 == 0x40
    let rsv2 := bits &&& 0x20 == 0x20
    let rsv3 := bits &&& 0x10 == 0x10
    let opcode := bits &&& 0xf
    let payload := p.data.drop (p.read_position + 1)
    let header := create_header opcode payload.length fin rsv1 rsv2 rsv3 false
    .ok (header ++ payload, { p with read_position := p.data.length })

section InnerFrameBitLemmas

lemma bit_fin : ∀ b < 256, (b &&& 0x80 == 0x80) = decide (b / 128 % 2 = 1) := by
  decide

lemma bit_rsv1 : ∀ b < 256, (b &&& 0x40 == 0x40) = decide (b / 64 % 2 = 1) := by
  decide

lemma bit_rsv2 : ∀ b < 256, (b &&& 0x20 == 0x20) = decide (b / 32 % 2 = 1) := by
  decide

lemma bit_rsv3 : ∀ b < 256, (b &&& 0x10 == 0x10) = decide (b / 16 % 2 = 1) := by
  decide

lemma band_0f : ∀ b < 256, b &&& 0xf = b % 16 := by decide

end InnerFrameBitLemmas

/-- C5: after the channel id has been read from a multiplexed frame payload,
reading the inner frame fails with `InvalidMuxFrameException` when no byte
remains; otherwise it returns a standard WebSocket frame header rebuilt
from the FIN, RSV1, RSV2, RSV3 and OPCODE bits of that byte (stated here by
arithmetic bit extraction) with the mask bit cleared, concatenated with all
remaining payload bytes, and consumes the payload to its end. -/
theorem read_inner_frame_spec (p : MuxFramePayloadParser)
    (hbyte : byteAt p p.read_position < 256) :
    (p.read_position = p.data.length →
      read_inner_frame p = .error .invalidMuxFrame) ∧
    (p.read_position < p.data.length →
      read_inner_frame p = .ok
        (create_header (byteAt p p.read_position % 16)
            (p.data.drop (p.read_position + 1)).length
            (decide (byteAt p p.read_position / 128 % 2 = 1))
            (decide (byteAt p p.read_position / 64 % 2 = 1))
            (decide (byteAt p p.read_position / 32 % 2 = 1))
            (decide (byteAt p p.read_position / 16 % 2 = 1))
            false
          ++ p.data.drop (p.read_position + 1),
         { p with read_position := p.data.length })) := by
  constructor
  · intro h
    unfold read_inner_frame
    rw [if_pos h.symm]
  · intro h
    unfold read_inner_frame
    rw [if_neg (by omega)]
    simp only [bit_fin _ hbyte, bit_rsv1 _ hbyte, bit_rsv2 _ hbyte,
      bit_rsv3 _ hbyte, band_0f _ hbyte]

/-- Witness for C5: a truncated payload (nothing after the channel id) fails,
and a payload carrying a final text frame `Hi` on channel 2 is rebuilt. -/
theorem read_inner_frame_spec_witness :
    read_inner_frame ⟨[0x02], 1⟩ = .error .invalidMuxFrame ∧
    read_inner_frame ⟨[0x02, 0x81, 0x48, 0x69], 1⟩ = .ok
      (create_header (byteAt ⟨[0x02, 0x81, 0x48, 0x69], 1⟩ 1 % 16)
          ((List.drop 2 [0x02, 0x81, 0x48, 0x69]).length)
          (decide (byteAt ⟨[0x02, 0x81, 0x48, 0x69], 1⟩ 1 / 128 % 2 = 1))
          (decide (byteAt ⟨[0x02, 0x81, 0x48, 0x69], 1⟩ 1 / 64 % 2 = 1))
          (decide (byteAt ⟨[0x02, 0x81, 0x48, 0x69], 1⟩ 1 / 32 % 2 = 1))
          (decide (byteAt ⟨[0x02, 0x81, 0x48, 0x69], 1⟩ 1 / 16 % 2 = 1))
          false
        ++ List.drop 2 [0x02, 0x81, 0x48, 0x69],
       ⟨[0x02, 0x81, 0x48, 0x69], 4⟩) :=
  ⟨(read_inner_frame_spec ⟨[0x02], 1⟩ (by decide)).1 (by decide),
   (read_inner_frame_spec ⟨[0x02, 0x81, 0x48, 0x69], 1⟩ (by decide)).2
     (by decide)⟩

/-- Embeds `_MuxFramePayloadParser._read_opcode_specific_data`: reads the
1- to 4-byte size field selected by `size_of_size`, then that many data
bytes; every shortfall is an `InvalidMuxControlBlockException`. -/
def read_opcode_specific_data (p : MuxFramePayloadParser)
    (opcode size_of_size : Nat) :
    Except MuxErr (List Nat × MuxFramePayloadParser) :=
  if p.data.length < p.read_position + size_of_size then
    .error .invalidMuxControlBlock
  else
    let pos0 := p.read_position
    let size_pos : Except MuxErr (Nat × Nat) :=
      if size_of_size = 1 then .ok (byteAt p pos0, pos0 + 1)
      else if size_of_size = 2 then .ok (be16 p pos0, pos0 + 2)
      else if size_of_size = 3 then
        .ok ((byteAt p pos0 <<< 16) + be16 p (pos0 + 1), pos0 + 3)
      else if size_of_size = 4 then .ok (be32 p pos0, pos0 + 4)
      else .error .invalidMuxControlBlock
    match size_pos with
    | .error e => .error e
    | .ok (size, pos) =>
      if p.data.length < pos + size then .error .invalidMuxControlBlock
      else .ok ((p.data.drop pos).take size,
                { p with read_position := pos + size })

/-- Embeds `_ControlBlock` together with the opcode-specific attributes that
`_MuxFramePayloadParser` attaches to it. -/
structure ControlBlock where
  opcode : Nat
  channel_id : Nat := 0
  encoding : Nat := 0
  encoded_handshake : List Nat := []
  mux_error : Nat := 0
  reason : List Nat := []
  deriving DecidableEq, Repr

/-- Embeds `_MuxFramePayloadParser._read_add_channel_request` (the
`first_byte` is the control-block byte already consumed by the caller). -/
def read_add_channel_request (first_byte : Nat) (p : MuxFramePayloadParser) :
    Except MuxErr (ControlBlock × MuxFramePayloadParser) := do
  let encoding := first_byte >>> 2 &&& 0x3
  let size_of_handshake_size := (first_byte &&& 0x3) + 1
  let (channel_id, p1) ← read_channel_id p
  let (encoded_handshake, p2) ←
    read_opcode_specific_data p1 0 size_of_handshake_size
  return ({ opcode := 0, channel_id := channel_id, encoding := encoding,
            encoded_handshake := encoded_handshake }, p2)

/-- Embeds `_MuxFramePayloadParser._read_flow_control`: the source body is
only `raise MuxNotImplementedException('FlowControl is not implemented')`. -/
def read_flow_control (first_byte : Nat) (p : MuxFramePayloadParser) :
    Except MuxErr (ControlBlock × MuxFramePayloadParser) :=
  .error .muxNotImplemented

/-- Embeds `_MuxFramePayloadParser._read_drop_channel`.  Note the guard in
the source: it raises `InvalidMuxControlBlockException` when `mux_error` is
SET and the reason is non-empty. -/
def read_drop_channel (first_byte : Nat) (p : MuxFramePayloadParser) :
    Except MuxErr (ControlBlock × MuxFramePayloadParser) := do
  let mux_error := first_byte >>> 4 &&& 0x1
  let size_of_reason_size := (first_byte &&& 0x3) + 1
  let (channel_id, p1) ← read_channel_id p
  let (reason, p2) ← read_opcode_specific_data p1 1 size_of_reason_size
  if mux_error ≠ 0 ∧ reason.length > 0 then .error .invalidMuxControlBlock
  else
    return ({ opcode := 3, channel_id := channel_id,
              mux_error := mux_error, reason := reason }, p2)

/-- Embeds `_MuxFramePayloadParser._read_new_channel_slot`: the source body
only raises `MuxNotImplementedException`. -/
def read_new_channel_slot (first_byte : Nat) (p : MuxFramePayloadParser) :
    Except MuxErr (ControlBlock × MuxFramePayloadParser) :=
  .error .muxNotImplemented

/-- Embeds `_MuxHandler._process_flow_control`: the source body is only
`raise MuxNotImplementedException('FlowControl is not implemented')`;
no quota is tracked or credited anywhere in the module. -/
def process_flow_control (block : ControlBlock) : Except MuxErr Unit :=
  .error .muxNotImplemented

/-- C2 evaluation: a FlowControl control block is never processed; both the
payload parser and the handler raise `MuxNotImplementedException` for every
FlowControl block (the concrete block here targets channel 2 with quota 6),
so no `send_quota` is ever credited and no blocked writer is woken. -/
theorem flow_control_not_implemented :
    read_flow_control 0x40 ⟨[0x40, 0x02, 0x06], 1⟩ = .error .muxNotImplemented ∧
    (∀ first_byte p, read_flow_control first_byte p =
      .error .muxNotImplemented) ∧
    (∀ block, process_flow_control block = .error .muxNotImplemented) :=
  ⟨rfl, fun _ _ => rfl, fun _ => rfl⟩

/-- Embeds `_create_control_block_length_value`.  `bits_of_length` is
`int(math.floor(math.log(length, 2)))`, which for the lengths possible here
equals `Nat.log2 length`. -/
def create_control_block_length_value (channel_id opcode flags : Nat)
    (value : List Nat) : Except MuxErr (List Nat) :=
  if channel_id > MAX_CHANNEL_ID then .error .valueError
  else if ¬(opcode = 0 ∨ opcode = 1 ∨ opcode = 3) then .error .valueError
  else if flags > 7 then .error .valueError
  else
    let length := value.length
    if length > 2 ^ 32 - 1 then .error .valueError
    else
      let first_byte :=
        if 0 < length then
          (opcode <<< 5) ||| (flags <<< 2) ||| (Nat.log2 length / 8)
        else (opcode <<< 5) ||| (flags <<< 2)
      let encoded_length :=
        if length < 2 ^ 8 then [length]
        else if length < 2 ^ 16 then pack16 length
        else if length < 2 ^ 24 then (length >>> 16) :: pack16 (length &&& 0xffff)
        else pack32 length
      match encode_channel_id channel_id with
      | .error e => .error e
      | .ok cid => .ok (first_byte :: cid ++ encoded_length ++ value)

/-- Modelled from the spec: `create_binary_frame` of
`mod_pywebsocket._stream_hybi` is not among the provided sources.  §6: outer
frames are standard WebSocket binary frames (opcode 2, FIN set) around the
payload. -/
def create_binary_frame (payload : List Nat) (mask : Bool) : List Nat :=
  create_header 0x2 payload.length true false false false mask ++ payload

/-- Embeds `_create_add_channel_response`. -/
def create_add_channel_response (channel_id : Nat)
    (encoded_handshake : List Nat) (encoding : Nat) (rejected : Bool) :
    Except MuxErr (List Nat) :=
  if encoding ≠ 0 ∧ encoding ≠ 1 then .error .valueError
  else do
    let flags := ((cond rejected 1 0) <<< 2) ||| encoding
    let block ← create_control_block_length_value channel_id 1 flags
      encoded_handshake
    let cid0 ← encode_channel_id CONTROL_CHANNEL_ID
    return create_binary_frame (cid0 ++ block) false

/-- Embeds `_create_drop_channel`.  Its validation accepts a non-empty
reason only together with `mux_error=True`. -/
def create_drop_channel (channel_id : Nat) (reason : List Nat)
    (mux_error : Bool) : Except MuxErr (List Nat) :=
  if ¬mux_error ∧ reason.length > 0 then .error .valueError
  else do
    let flags := (cond mux_error 1 0) <<< 2
    let block ← create_control_block_length_value channel_id 3 flags reason
    let cid0 ← encode_channel_id CONTROL_CHANNEL_ID
    return create_binary_frame (cid0 ++ block) false

/-- C7 evaluation: the parser's polarity on DropChannel reasons is the
reverse of the claim, of the emitter `_create_drop_channel` in the same
module, and of the draft.  The emitter refuses `mux_error=false` with a
non-empty reason and happily builds the `mux_error=true` block
`70 02 05 'error'` — which the parser then rejects as an invalid control
block, while the parser accepts the `mux_error=false` variant `60 02 05
'error'` and records its reason. -/
theorem drop_channel_reason_polarity :
    create_drop_channel 2 (strBytes "error") false = .error .valueError ∧
    create_control_block_length_value 2 3 4 (strBytes "error") =
      .ok [0x70, 0x02, 0x05, 0x65, 0x72, 0x72, 0x6f, 0x72] ∧
    create_drop_channel 2 (strBytes "error") true =
      .ok (create_binary_frame
        (0x00 :: [0x70, 0x02, 0x05, 0x65, 0x72, 0x72, 0x6f, 0x72]) false) ∧
    read_drop_channel 0x70
        ⟨[0x70, 0x02, 0x05, 0x65, 0x72, 0x72, 0x6f, 0x72], 1⟩ =
      .error .invalidMuxControlBlock ∧
    read_drop_channel 0x60
        ⟨[0x60, 0x02, 0x05, 0x65, 0x72, 0x72, 0x6f, 0x72], 1⟩ =
      .ok ({ opcode := 3, channel_id := 2, mux_error := 0,
             reason := strBytes "error" },
           ⟨[0x60, 0x02, 0x05, 0x65, 0x72, 0x72, 0x6f, 0x72], 8⟩) := by
  have hlog : Nat.log2 5 = 2 := by simp [Nat.log2]
  have hsb : strBytes "error" = [0x65, 0x72, 0x72, 0x6f, 0x72] := rfl
  refine ⟨rfl, ?_, ?_, rfl, rfl⟩
  · simp [create_control_block_length_value, hsb, hlog, encode_channel_id,
      pack16, MAX_CHANNEL_ID]
  · simp [create_drop_channel, create_control_block_length_value, hsb, hlog,
      encode_channel_id, CONTROL_CHANNEL_ID, create_binary_frame,
      create_header, pack16, MAX_CHANNEL_ID, bind, Except.bind, pure,
      Except.pure]

/-- The handler's `_logical_channels` table, reduced to the per-channel
state the dispatch path touches: each entry is a channel id paired with its
logical connection's `_incoming_data` buffer. -/
abbrev ChannelTable := List (Nat × List Nat)

/-- Membership test `channel_id in self._logical_channels`. -/
def channel_present (table : ChannelTable) (channel_id : Nat) : Bool :=
  table.any fun e => e.1 == channel_id

/-- Embeds `_LogicalConnection.append_frame_data` applied to the channel's
entry: the frame data is appended to that channel's inbound buffer. -/
def append_frame_data (table : ChannelTable) (channel_id : Nat)
    (frame_data : List Nat) : ChannelTable :=
  table.map fun e => if e.1 = channel_id then (e.1, e.2 ++ frame_data) else e

/-- Embeds `_MuxHandler._dispatch_frame_to_logical_channel`: raises
`MuxUnexpectedException` when the channel id is not in the table, otherwise
appends the frame data to the channel's connection. -/
def dispatch_frame_to_logical_channel (table : ChannelTable)
    (channel_id : Nat) (frame_data : List Nat) : Except MuxErr ChannelTable :=
  if channel_present table channel_id = false then .error .muxUnexpected
  else .ok (append_frame_data table channel_id frame_data)

/-- Result of `_MuxHandler.dispatch_frame`: a channel-0 frame hands the
parser (positioned after the channel id) to `_process_control_blocks`; a
data frame updates the channel table. -/
inductive DispatchResult where
  | control (p : MuxFramePayloadParser)
  | dispatched (table : ChannelTable)
  deriving Repr

/-- Embeds `_MuxHandler.dispatch_frame` on a frame's payload bytes. -/
def dispatch_frame (table : ChannelTable) (payload : List Nat) :
    Except MuxErr DispatchResult := do
  let p : MuxFramePayloadParser := ⟨payload, 0⟩
  let (channel_id, p1) ← read_channel_id p
  if channel_id = CONTROL_CHANNEL_ID then
    return .control p1
  else do
    let (frame_data, _p2) ← read_inner_frame p1
    let table2 ← dispatch_frame_to_logical_channel table channel_id frame_data
    return .dispatched table2

/-- C1 evaluation: the dispatch path performs no receive-quota accounting.
The inbound text message `HelloWorld` on channel 2 — which under the claim
may only be accepted when `receive_quota ≥ len+1 = 11`, and the module holds
no quota state at all — is appended to the channel's buffer in full (as the
rebuilt inner frame `81 0A || HelloWorld`), the dispatch succeeds, and no
`DropChannel(SendQuotaViolation)` (nor any other control block: the data
path contains no send call) is emitted. -/
theorem dispatch_without_quota_accounting :
    dispatch_frame [(2, [])] (0x02 :: 0x81 :: strBytes "HelloWorld") =
      .ok (.dispatched [(2, [0x81, 0x0a] ++ strBytes "HelloWorld")]) ∧
    (strBytes "HelloWorld").length + 1 = 11 :=
  ⟨rfl, rfl⟩

/-- C10 counterexample: a frame whose payload is the single byte `02` has
decoded channel id 2 (nonzero, absent from the empty channel table), yet
`dispatch_frame` raises `InvalidMuxFrameException` (from
`read_inner_frame`, which runs before the table lookup), not
`MuxUnexpectedException`. -/
theorem dispatch_frame_truncated_counterexample :
    dispatch_frame [] [0x02] = .error .invalidMuxFrame ∧
    dispatch_frame [] [0x02] ≠ .error .muxUnexpected := by
  have h : dispatch_frame [] [0x02] = .error .invalidMuxFrame := rfl
  refine ⟨h, ?_⟩
  rw [h]
  intro hc
  exact absurd (Except.error.inj hc) (by decide)

/-- C10 amended: for every dispatched frame whose decoded channel id is
nonzero and not present in the channel table, `dispatch_frame` raises
`MuxUnexpectedException` when at least one byte follows the channel id, and
`InvalidMuxFrameException` when none does; in both cases the frame is not
silently dropped and no logical connection's inbound buffer is changed (the
error result carries no updated table). -/
theorem dispatch_frame_unknown_channel (table : ChannelTable)
    (payload : List Nat) (channel_id : Nat) (p1 : MuxFramePayloadParser)
    (hread : read_channel_id ⟨payload, 0⟩ = .ok (channel_id, p1))
    (hch : channel_id ≠ 0)
    (habsent : channel_present table channel_id = false) :
    (p1.read_position < p1.data.length →
      dispatch_frame table payload = .error .muxUnexpected) ∧
    (p1.read_position = p1.data.length →
      dispatch_frame table payload = .error .invalidMuxFrame) := by
  constructor
  · intro hlt
    simp only [dispatch_frame, hread, bind, Except.bind, CONTROL_CHANNEL_ID,
      hch, if_false, ite_false]
    unfold read_inner_frame
    rw [if_neg (by omega)]
    simp [dispatch_frame_to_logical_channel, habsent]
  · intro heq
    simp only [dispatch_frame, hread, bind, Except.bind, CONTROL_CHANNEL_ID,
      hch, if_false, ite_false]
    unfold read_inner_frame
    rw [if_pos heq.symm]

/-- Witness for the amended C10: channel 2 with one inner byte yields
`MuxUnexpectedException`; with no inner byte, `InvalidMuxFrameException`. -/
theorem dispatch_frame_unknown_channel_witness :
    dispatch_frame [] [0x02, 0x81] = .error .muxUnexpected ∧
    dispatch_frame [] [0x02] = .error .invalidMuxFrame :=
  ⟨(dispatch_frame_unknown_channel [] [0x02, 0x81] 2 ⟨[0x02, 0x81], 1⟩ rfl
      (by decide) rfl).1 (by decide),
   (dispatch_frame_unknown_channel [] [0x02] 2 ⟨[0x02], 1⟩ rfl
      (by decide) rfl).2 (by decide)⟩

/-- The read states of `_LogicalConnection` (`STATE_ACTIVE`,
`STATE_GRACEFULLY_CLOSED`, `STATE_TERMINATED`). -/
inductive ReadState where
  | active
  | gracefullyClosed
  | terminated
  deriving DecidableEq, Repr

/-- Outcome of one evaluation of `_LogicalConnection.read`'s wait condition
and body: still blocked on the condition variable, one of the two
exceptions, or the returned bytes together with the remaining buffer. -/
inductive ReadOutcome where
  | blocked
  | logicalConnectionClosed
  | connectionTerminated
  | ok (value : List Nat) (remaining : List Nat)
  deriving DecidableEq, Repr

/-- Embeds `_LogicalConnection.read`: the wait loop blocks while the state
is `STATE_ACTIVE` and fewer than `length` bytes are buffered; once resumed,
a gracefully closed state raises `LogicalConnectionClosedException`, a
terminated state raises `ConnectionTerminatedException`, and otherwise the
first `length` bytes are returned and removed from `_incoming_data`. -/
def LogicalConnection.read (read_state : ReadState)
    (incoming_data : List Nat) (length : Nat) : ReadOutcome :=
  if read_state = .active ∧ incoming_data.length < length then .blocked
  else if read_state = .gracefullyClosed then .logicalConnectionClosed
  else if read_state = .terminated then .connectionTerminated
  else .ok (incoming_data.take length) (incoming_data.drop length)

/-- C8: `read(n)` blocks exactly while the read state is Active and fewer
than `n` bytes are buffered; once resumed, a GracefullyClosed state fails
with the logical-connection-closed error, a Terminated state fails with the
connection-terminated error, and otherwise the call returns exactly the
first `n` buffered bytes (of length `n`) and removes them from the
buffer. -/
theorem logical_connection_read_spec (state : ReadState) (buffer : List Nat)
    (n : Nat) :
    (LogicalConnection.read state buffer n = .blocked ↔
      state = .active ∧ buffer.length < n) ∧
    (¬(state = .active ∧ buffer.length < n) →
      (state = .gracefullyClosed →
        LogicalConnection.read state buffer n = .logicalConnectionClosed) ∧
      (state = .terminated →
        LogicalConnection.read state buffer n = .connectionTerminated) ∧
      (state = .active →
        LogicalConnection.read state buffer n =
          .ok (buffer.take n) (buffer.drop n) ∧
        (buffer.take n).length = n ∧
        buffer.take n ++ buffer.drop n = buffer)) := by
  constructor
  · cases state <;> simp [LogicalConnection.read]
  · intro hres
    refine ⟨?_, ?_, ?_⟩
    · intro h; subst h; simp [LogicalConnection.read]
    · intro h; subst h; simp [LogicalConnection.read]
    · intro h
      subst h
      have hlen : n ≤ buffer.length := by
        by_contra hc
        exact hres ⟨rfl, by omega⟩
      refine ⟨?_, ?_, List.take_append_drop n buffer⟩
      · simp [LogicalConnection.read]
        omega
      · simp [List.length_take]
        omega

/-- Witness for C8: with 3 bytes buffered and state Active, `read 2`
returns the first two bytes; with state Terminated it fails. -/
theorem logical_connection_read_spec_witness :
    (LogicalConnection.read .active [7, 8, 9] 2 =
        .ok (List.take 2 [7, 8, 9]) (List.drop 2 [7, 8, 9]) ∧
      (List.take 2 [7, 8, 9]).length = 2 ∧
      List.take 2 [7, 8, 9] ++ List.drop 2 [7, 8, 9] = [7, 8, 9]) ∧
    LogicalConnection.read .terminated [] 2 = .connectionTerminated :=
  ⟨((logical_connection_read_spec .active [7, 8, 9] 2).2 (by simp)).2.2 rfl,
   ((logical_connection_read_spec .terminated [] 2).2 (by simp)).2.1 rfl⟩

/-- Embeds `_OutgoingData`. -/
structure OutgoingData where
  channel_id : Nat
  data : List Nat
  deriving DecidableEq, Repr

/-- Embeds the flush loop at the end of `_PhysicalConnectionWriter.run`:
once stop has been requested, the remaining deque items are popped from the
left and written, in order, until the deque is empty.  Returns the final
deque and the cumulative list of written items. -/
def writer_flush (deque written : List OutgoingData) :
    List OutgoingData × List OutgoingData :=
  match deque with
  | [] => ([], written)
  | d :: rest => writer_flush rest (written ++ [d])

lemma writer_flush_spec (deque written : List OutgoingData) :
    writer_flush deque written = ([], written ++ deque) := by
  induction deque generalizing written with
  | nil => simp [writer_flush]
  | cons d rest ih => simp [writer_flush, ih]

/-- One round of `_logical_channels_condition.wait(timeout)` inside
`wait_until_done`, as observed by the loop: either the wait returned with
no `notify_worker_done` having fired (a timeout), or a worker-done
notification fired, leaving the channel table in a new state. -/
inductive WaitEvent where
  | timeout
  | workerDone (table : ChannelTable)
  deriving Repr

/-- Embeds `_MuxHandler.wait_until_done` driven by a sequence of wait
outcomes: while the channel table is non-empty, a wait round that ends
without a worker-done notification returns `False`; when the table empties,
the writer is stopped and joined — its `run` method flushes the remaining
deque — and the call returns `True`.  `none` models a call still blocked in
`wait` with no events left. -/
def wait_until_done (table : ChannelTable)
    (deque written : List OutgoingData) (events : List WaitEvent) :
    Option (Bool × ChannelTable × List OutgoingData × List OutgoingData) :=
  match table, events with
  | [], _ =>
    some (true, [], (writer_flush deque written).1, (writer_flush deque written).2)
  | _ :: _, [] => none
  | _ :: _, .timeout :: _ => some (false, table, deque, written)
  | _ :: _, .workerDone table2 :: rest => wait_until_done table2 deque written rest

/-- C9: `wait_until_done` returns false whenever a wait round times out
while workers remain (the channel table is non-empty); and whenever it
returns true, the channel table is empty and the writer queue has been
drained — the final deque is empty and exactly the pending outgoing items
have been appended, in order, to the written list before the writer
stopped. -/
theorem wait_until_done_spec (table : ChannelTable)
    (deque written : List OutgoingData) (events : List WaitEvent) :
    (table ≠ [] →
      wait_until_done table deque written (.timeout :: events) =
        some (false, table, deque, written)) ∧
    (∀ table2 deque2 written2,
      wait_until_done table deque written events =
          some (true, table2, deque2, written2) →
      table2 = [] ∧ deque2 = [] ∧ written2 = written ++ deque) := by
  constructor
  · intro h
    cases table with
    | nil => exact absurd rfl h
    | cons c cs => rfl
  · induction events generalizing table with
    | nil =>
      intro table2 deque2 written2 h
      cases table with
      | nil =>
        simp only [wait_until_done, writer_flush_spec, Option.some.injEq,
          Prod.mk.injEq] at h
        exact ⟨h.2.1.symm, h.2.2.1.symm, h.2.2.2.symm⟩
      | cons c cs => exact absurd h (by simp [wait_until_done])
    | cons e rest ih =>
      intro table2 deque2 written2 h
      cases table with
      | nil =>
        simp only [wait_until_done, writer_flush_spec, Option.some.injEq,
          Prod.mk.injEq] at h
        exact ⟨h.2.1.symm, h.2.2.1.symm, h.2.2.2.symm⟩
      | cons c cs =>
        cases e with
        | timeout =>
          simp only [wait_until_done, Option.some.injEq, Prod.mk.injEq] at h
          exact absurd h.1.symm (by decide)
        | workerDone table3 =>
          exact ih table3 table2 deque2 written2 h

/-- Witness for C9: an immediate timeout with one open channel returns
false; with an empty table the call returns true with the queued item
flushed. -/
theorem wait_until_done_spec_witness :
    wait_until_done [(2, [])] [] [] (WaitEvent.timeout :: []) =
      some (false, [(2, [])], [], []) ∧
    (([] : ChannelTable) = [] ∧ ([] : List OutgoingData) = [] ∧
      [(⟨5, [7]⟩ : OutgoingData)] = [] ++ [(⟨5, [7]⟩ : OutgoingData)]) :=
  ⟨(wait_until_done_spec [(2, [])] [] [] []).1 (by simp),
   (wait_until_done_spec [] [⟨5, [7]⟩] [] []).2 [] [] [⟨5, [7]⟩] rfl⟩

/-- `common.HTTP_STATUS_BAD_REQUEST`, the only key of
`_HTTP_BAD_RESPONSE_MESSAGES`. -/
def HTTP_STATUS_BAD_REQUEST : Nat := 400

/-- Python's `text.split(sep, 1)` restricted to the first two pieces:
splits at the first occurrence of `sep`, or `none` when `sep` does not
occur (in which case the two-name unpacking in the source raises
`ValueError`). -/
def splitOnce (sep : List Nat) : List Nat → Option (List Nat × List Nat)
  | [] => none
  | b :: rest =>
    if sep.isPrefixOf (b :: rest) then some ([], (b :: rest).drop sep.length)
    else
      match splitOnce sep rest with
      | some (left, right) => some (b :: left, right)
      | none => none

/-- Embeds `_parse_request_text`: split the request line off at the first
CRLF (a missing CRLF makes the two-name unpacking raise `ValueError`),
split the request line on single spaces, require exactly three words and
the version `HTTP/1.1`; the header block is handed to the external RFC 2822
parser (`email.parser`, out of scope per §1) and carried through here
unchanged. -/
def parse_request_text (request_text : List Nat) :
    Except MuxErr (List Nat × List Nat × List Nat × List Nat) :=
  match splitOnce (strBytes "\r\n") request_text with
  | none => .error .valueError
  | some (request_line, header_lines) =>
    match request_line.splitOn 32 with
    | [command, path, version] =>
      if version = strBytes "HTTP/1.1" then
        .ok (command, path, version, header_lines)
      else .error .valueError
    | _ => .error .valueError

/-- Embeds `_LogicalRequest` (the fields the handshake path uses). -/
structure LogicalRequest where
  channel_id : Nat
  method : List Nat
  uri : List Nat
  headers_in : List Nat
  deriving DecidableEq, Repr

/-- Embeds `_MuxHandler._create_logical_request`: channel id 0 raises
`MuxUnexpectedException`, a non-identity encoding raises
`MuxNotImplementedException` (both escape the `except ValueError` in the
caller), and the encoded handshake is parsed as an HTTP request. -/
def create_logical_request (block : ControlBlock) :
    Except MuxErr LogicalRequest :=
  if block.channel_id = CONTROL_CHANNEL_ID then .error .muxUnexpected
  else if block.encoding ≠ 0 then .error .muxNotImplemented
  else
    match parse_request_text block.encoded_handshake with
    | .error e => .error e
    | .ok (command, path, _version, headers) =>
      .ok { channel_id := block.channel_id, method := command,
            uri := path, headers_in := headers }

/-- Modelled from the spec: the outcome of the consumed opening-handshake
engine (§6), `handshake(request) -> accept | VersionException |
HandshakeException(status) | AbortedByUserException`; the engine itself
(`mod_pywebsocket.handshake`) is not among the provided sources. -/
inductive HandshakeOutcome where
  | accept
  | versionException
  | handshakeException (status : Option Nat)
  | abortedByUser
  deriving DecidableEq, Repr

/-- Embeds `_MuxHandler._send_error_add_channel_response`: the default
status is 400, the message is looked up in `_HTTP_BAD_RESPONSE_MESSAGES`
(falling back to `???`), and a rejected identity-encoded
AddChannelResponse is built. -/
def send_error_add_channel_response (channel_id : Nat)
    (status : Option Nat) : Except MuxErr (List Nat) :=
  let status := status.getD HTTP_STATUS_BAD_REQUEST
  let message := if status = HTTP_STATUS_BAD_REQUEST then "Bad Request"
    else "???"
  create_add_channel_response channel_id
    (strBytes ("HTTP/1.1 " ++ toString status ++ " " ++ message ++ "\r\n\r\n"))
    0 true

/-- Result of `_MuxHandler._do_handshake_for_logical_request`: the frames
handed to `send_control_data`, whether the handshake succeeded, and an
escaping exception if any. -/
structure HandshakeStepResult where
  emits : List (Except MuxErr (List Nat))
  accepted : Bool
  exc : Option MuxErr

/-- Embeds `_MuxHandler._do_handshake_for_logical_request`.  On
`VersionException` the handler references `block.channel_id`, but no name
`block` is in scope in that method, so evaluating the argument raises
`NameError` before any response is sent.  On `HandshakeException` the error
response carries the exception's status; on `AbortedByUserException` the
default status is used.  Responses emitted during a successful handshake go
through the handshake engine itself (`_MuxHandshaker._send_handshake`) and
are not modelled here. -/
def do_handshake_for_logical_request (channel_id : Nat)
    (hs : HandshakeOutcome) : HandshakeStepResult :=
  match hs with
  | .accept => { emits := [], accepted := true, exc := none }
  | .versionException => { emits := [], accepted := false, exc := some .nameError }
  | .handshakeException status =>
    { emits := [send_error_add_channel_response channel_id status],
      accepted := false, exc := none }
  | .abortedByUser =>
    { emits := [send_error_add_channel_response channel_id none],
      accepted := false, exc := none }

/-- Embeds `_MuxHandler._add_logical_channel`: a duplicate channel id
raises `MuxUnexpectedException` (leaving the table unchanged); otherwise
the channel is added (with a fresh, empty inbound buffer) and its worker
started. -/
def add_logical_channel (table : ChannelTable) (channel_id : Nat) :
    ChannelTable × Option MuxErr :=
  if channel_present table channel_id then (table, some .muxUnexpected)
  else (table ++ [(channel_id, [])], none)

/-- Result of `_MuxHandler._process_add_channel_request`: emitted control
frames, the channel table afterwards, and an escaping exception if any. -/
structure ProcessResult where
  emits : List (Except MuxErr (List Nat))
  table : ChannelTable
  exc : Option MuxErr

/-- Embeds `_MuxHandler._process_add_channel_request`: only `ValueError`
from `_create_logical_request` is caught (answered with a rejected
AddChannelResponse of status 400); then the handshake runs and, only on
success, the channel is added to the table. -/
def process_add_channel_request (block : ControlBlock) (table : ChannelTable)
    (hs : HandshakeOutcome) : ProcessResult :=
  match create_logical_request block with
  | .error .valueError =>
    { emits := [send_error_add_channel_response block.channel_id
        (some HTTP_STATUS_BAD_REQUEST)],
      table := table, exc := none }
  | .error e => { emits := [], table := table, exc := some e }
  | .ok req =>
    let h := do_handshake_for_logical_request req.channel_id hs
    if h.accepted then
      let added := add_logical_channel table req.channel_id
      { emits := h.emits, table := added.1, exc := added.2 }
    else { emits := h.emits, table := table, exc := h.exc }

lemma send_error_400 (channel_id : Nat) :
    send_error_add_channel_response channel_id (some HTTP_STATUS_BAD_REQUEST) =
      create_add_channel_response channel_id
        (strBytes "HTTP/1.1 400 Bad Request\r\n\r\n") 0 true := rfl

/-- C6: an identity-encoded AddChannelRequest (on a nonzero channel) whose
encoded handshake fails HTTP request parsing is answered with an
AddChannelResponse carrying `rejected=true` and the literal response
`HTTP/1.1 400 Bad Request`, and the channel table is left unchanged; and
for every rejected handshake — bad request, version mismatch, handshake
exception, or handler abort — the channel is never added to the table. -/
theorem add_channel_request_rejection (block : ControlBlock)
    (table : ChannelTable) (hs : HandshakeOutcome) :
    (block.encoding = 0 → block.channel_id ≠ CONTROL_CHANNEL_ID →
      parse_request_text block.encoded_handshake = .error .valueError →
      process_add_channel_request block table hs =
        { emits := [create_add_channel_response block.channel_id
            (strBytes "HTTP/1.1 400 Bad Request\r\n\r\n") 0 true],
          table := table, exc := none }) ∧
    (hs ≠ .accept → (process_add_channel_request block table hs).table = table) := by
  constructor
  · intro henc hch hparse
    have hclr : create_logical_request block = .error .valueError := by
      simp [create_logical_request, hch, henc, hparse]
    simp [process_add_channel_request, hclr, send_error_400]
  · intro hhs
    unfold process_add_channel_request
    rcases hclr : create_logical_request block with e | req
    · cases e <;> rfl
    · have hacc : (do_handshake_for_logical_request req.channel_id hs).accepted
          = false := by
        cases hs with
        | accept => exact absurd rfl hhs
        | versionException => rfl
        | handshakeException status => rfl
        | abortedByUser => rfl
      simp [hacc]

/-- Witness for C6: the handshake text `garbage` (no CRLF) on channel 2 is
rejected with the 400 response and the table is unchanged; a handshake
exception with status 403 also leaves the table unchanged. -/
theorem add_channel_request_rejection_witness :
    process_add_channel_request
        { opcode := 0, channel_id := 2, encoding := 0,
          encoded_handshake := strBytes "garbage" } [] .accept =
      { emits := [create_add_channel_response 2
          (strBytes "HTTP/1.1 400 Bad Request\r\n\r\n") 0 true],
        table := [], exc := none } ∧
    (process_add_channel_request
        { opcode := 0, channel_id := 3, encoding := 0,
          encoded_handshake := strBytes "GET / HTTP/1.1\r\n\r\n" } [(2, [])]
        (.handshakeException (some 403))).table = [(2, [])] :=
  ⟨(add_channel_request_rejection
      { opcode := 0, channel_id := 2, encoding := 0,
        encoded_handshake := strBytes "garbage" } [] .accept).1
      rfl (by decide) rfl,
   (add_channel_request_rejection
      { opcode := 0, channel_id := 3, encoding := 0,
        encoded_handshake := strBytes "GET / HTTP/1.1\r\n\r\n" } [(2, [])]
      (.handshakeException (some 403))).2 (by decide)⟩

end Pywebsocket
